import Mathlib

/-!
Verification of the request-execution core of the pewpew load-testing engine
against its natural-language specification.

The development shallowly embeds the Rust code of `src/providers.rs`,
`src/request.rs` and `src/util.rs`:

* pure functions become Lean functions;
* the stateful stream/future combinators (`RepeaterStream::poll`,
  `BlockSender::poll`, the logger `for_each` loop, the on-demand gated
  `poll_fn` in `Endpoint::into_future`, the sentinel `poll_fn` in
  `Builder::build`) become explicit state-passing step functions;
* the bounded channel (the `channel` module is not part of the analysed
  sources; only its callers are) is modelled from the specification's §4.A
  contract: a bounded mailbox with `try_send` returning
  `Success`/`Full`/`Closed` and a `no_receivers` probe.

JSON values are modelled with integer numbers only: no claim under analysis
depends on float rendering.
-/

namespace Pewpew

/-- JSON value datum, the universal inter-component value
(`serde_json::Value` in the source). Numbers are modelled as integers. -/
inductive Json where
  | null : Json
  | bool (b : Bool) : Json
  | num (n : Int) : Json
  | str (s : String) : Json
  | arr (xs : List Json) : Json
  | obj (kvs : List (String × Json)) : Json

/-- `serde_json::Value::is_string`. -/
def Json.is_string : Json → Bool
  | .str _ => true
  | _ => false

/-- One escaped character of a JSON string literal (models the escaping
done by `serde_json`'s serializer for the characters that can appear in
the concrete values used in this development). -/
def escapeChar (c : Char) : String :=
  if c = '"' then "\\\""
  else if c = '\\' then "\\\\"
  else String.singleton c

/-- Escape the body of a JSON string literal. -/
def escapeJson (s : String) : String :=
  s.data.foldl (fun acc c => acc ++ escapeChar c) ("")

/-- A JSON string literal: quoted and escaped. -/
def quoteJson (s : String) : String :=
  "\"" ++ escapeJson s ++ "\""

mutual

/-- Compact JSON rendering: models `serde_json`'s `Display` (the Rust
format string month is the plain one) used by `writeln!(file, "\x7b\x7d", v)`
and by `Value::to_string`. -/
def compactString : Json → String
  | .null => "null"
  | .bool true => "true"
  | .bool false => "false"
  | .num n => toString n
  | .str s => quoteJson s
  | .arr xs => "[" ++ compactArr xs ++ "]"
  | .obj kvs => "\x7b" ++ compactObj kvs ++ "\x7d"

/-- Comma-separated compact rendering of array elements. -/
def compactArr : List Json → String
  | [] => ""
  | [x] => compactString x
  | x :: y :: rest => compactString x ++ "," ++ compactArr (y :: rest)

/-- Comma-separated compact rendering of object fields. -/
def compactObj : List (String × Json) → String
  | [] => ""
  | [(k, v)] => quoteJson k ++ ":" ++ compactString v
  | (k, v) :: p :: rest =>
    quoteJson k ++ ":" ++ compactString v ++ "," ++ compactObj (p :: rest)

end

/-- `n` spaces, for pretty-printing indentation. -/
def indentStr (n : Nat) : String :=
  String.mk (List.replicate n ' ')

mutual

/-- Pretty multi-line JSON rendering at indentation depth `d`: models
`serde_json`'s alternate `Display` (the `:#` format) used by
`eprintln!`/`println!`/`writeln!` with the alternate flag. Scalars render
as in the compact form; arrays and objects one element per line with
two-space indentation. -/
def prettyAux : Nat → Json → String
  | _, .null => "null"
  | _, .bool true => "true"
  | _, .bool false => "false"
  | _, .num n => toString n
  | _, .str s => quoteJson s
  | _, .arr [] => "[]"
  | d, .arr (x :: xs) =>
    "[\n" ++ prettyItems (d + 2) (x :: xs) ++ "\n" ++ indentStr d ++ "]"
  | _, .obj [] => "\x7b\x7d"
  | d, .obj (p :: ps) =>
    "\x7b\n" ++ prettyFields (d + 2) (p :: ps) ++ "\n" ++ indentStr d ++ "\x7d"

/-- Pretty rendering of array elements, one per line. -/
def prettyItems : Nat → List Json → String
  | _, [] => ""
  | d, [x] => indentStr d ++ prettyAux d x
  | d, x :: y :: rest =>
    indentStr d ++ prettyAux d x ++ ",\n" ++ prettyItems d (y :: rest)

/-- Pretty rendering of object fields, one per line. -/
def prettyFields : Nat → List (String × Json) → String
  | _, [] => ""
  | d, [(k, v)] => indentStr d ++ quoteJson k ++ ": " ++ prettyAux d v
  | d, (k, v) :: p :: rest =>
    indentStr d ++ quoteJson k ++ ": " ++ prettyAux d v ++ ",\n" ++
      prettyFields d (p :: rest)

end

/-- Top-level pretty rendering (`format!("\x7b:#\x7d", v)` in the source). -/
def prettyString (v : Json) : String :=
  prettyAux 0 v

/-- `util::json_value_into_string` (src/util.rs lines 16-21): a JSON string
yields its unquoted contents, any other value its compact rendering. -/
def json_value_into_string : Json → String
  | .str s => s
  | v => compactString v

/-! ## Bounded channel (modelled from the spec)

The `channel` module is referenced by the sources (`crate::channel`) but is
not among the analysed files; only its callers are. Its behaviour is
modelled from spec §3 and §4.A. -/

/-- Channel capacity. `Limit::Integer(n)` or the adaptive `Limit::Auto`
(spec §3: "`Auto` adapts ...; floor = 1"). -/
inductive Limit where
  | Integer (n : Nat) : Limit
  | Auto : Limit
deriving DecidableEq

/-- Modelled from the spec: the current capacity a `Limit` grants. An
`Integer` limit is fixed; `Auto` starts at its floor of 1 (§4.A; the
adaptive growth is not exercised by any claim under analysis). -/
def capOf : Limit → Nat
  | .Integer n => n
  | .Auto => 1

/-- Modelled from the spec (§3, §4.A): a bounded mailbox. `buf` is the
buffered values in FIFO order, `cap` the current capacity, `receivers`
the number of attached receivers. -/
structure Channel where
  buf : List Json
  cap : Nat
  receivers : Nat

/-- Result tag of `Sender::try_send` (spec §3:
"`try_send(v) → (Success, Full(v back), Closed)`"; the `Full` payload is
kept by the caller in this model). -/
inductive SendState where
  | closed : SendState
  | full : SendState
  | success : SendState
deriving DecidableEq

/-- Modelled from the spec (§3, §4.A): `Sender::try_send`. Fails `closed`
when no receivers remain, `full` at capacity, otherwise appends the value. -/
def try_send (c : Channel) (v : Json) : SendState × Channel :=
  if c.receivers = 0 then (.closed, c)
  else if c.cap ≤ c.buf.length then (.full, c)
  else (.success, { c with buf := c.buf ++ [v] })

/-- Modelled from the spec (§3): the `no_receivers()` termination probe. -/
def no_receivers (c : Channel) : Bool :=
  c.receivers = 0

/-- Modelled from the spec (§4.A): `channel(limit)` creates an empty
channel at the limit's capacity; `receivers` counts the attached
receiver clones. -/
def newChannel (l : Limit) (receivers : Nat) : Channel :=
  { buf := [], cap := capOf l, receivers := receivers }

/-- Fold `try_send` over a list of values, collecting each send's result
tag (used to probe channel capacity). -/
def sendAll (c : Channel) (vs : List Json) : Channel × List SendState :=
  match vs with
  | [] => (c, [])
  | v :: rest =>
    let (st, c') := try_send c v
    let (c'', sts) := sendAll c' rest
    (c'', st :: sts)

/-! ## Logger sink (src/providers.rs, `logger`) -/

/-- `config::Logger` fields consumed by `providers::logger`
(src/providers.rs lines 151-161). -/
structure LoggerConfig where
  «to» : String
  limit : Option Nat
  pretty : Bool
  kill : Bool

/-- src/providers.rs line 156: every logger's channel is created as
`channel::channel::<json::Value>(Limit::Integer(5))`, independent of the
configuration. -/
def loggerChannelLimit (_t : LoggerConfig) : Limit :=
  Limit.Integer 5

/-- The written line for the stderr destination (src/providers.rs lines
167-172): pretty rendering when `pretty && !v.is_string()`, otherwise
`json_value_into_string`. -/
def loggerWriteStderr (pretty : Bool) (v : Json) : String :=
  if pretty && !v.is_string then prettyString v else json_value_into_string v

/-- The written line for the stdout destination (src/providers.rs lines
204-209): same branches as the stderr destination. -/
def loggerWriteStdout (pretty : Bool) (v : Json) : String :=
  if pretty && !v.is_string then prettyString v else json_value_into_string v

/-- The written line for a file destination (src/providers.rs lines
255-263): `writeln!(file, "\x7b:#\x7d", v)` whenever `pretty` (strings
included), otherwise `writeln!(file, "\x7b\x7d", v)`, i.e. the compact
`Display` rendering (strings quoted). -/
def loggerWriteFile (pretty : Bool) (v : Json) : String :=
  if pretty then prettyString v else compactString v

/-- Follows the spec's words (§4.D item 2 and §6 "Logger outputs"): the
written form claimed for every destination — pretty multi-line when
`pretty` and the value is not a string, else stringified with strings
unquoted. To be compared with the per-destination functions above. -/
def specLoggerWrite (pretty : Bool) (v : Json) : String :=
  if pretty && !v.is_string then prettyString v else json_value_into_string v

/-- Mutable state of the logger consumer loop: the received-value
`counter` and the `keep_logging` flag (src/providers.rs lines 160-161). -/
structure LogState where
  counter : Nat
  keepLogging : Bool

/-- One iteration of the logger `for_each` loop (src/providers.rs lines
165-196, stderr destination; stdout and file share the control flow):
increment the counter, write the value if still logging, then on
`counter >= limit` either send `KilledByLogger` (when `kill`) or clear
`keep_logging`; with no limit and `kill`, send after every value.
Returns the new state, the written value (if any) and the number of
`KilledByLogger` messages sent to the test-killer. -/
def logStep (limit : Option Nat) (kill : Bool) (s : LogState) (v : Json) :
    LogState × Option Json × Nat :=
  let counter := s.counter + 1
  let written := if s.keepLogging then some v else none
  match limit with
  | some l =>
    if l ≤ counter then
      if kill then ({ counter := counter, keepLogging := s.keepLogging }, written, 1)
      else ({ counter := counter, keepLogging := false }, written, 0)
    else ({ counter := counter, keepLogging := s.keepLogging }, written, 0)
  | none =>
    if kill then ({ counter := counter, keepLogging := s.keepLogging }, written, 1)
    else ({ counter := counter, keepLogging := s.keepLogging }, written, 0)

/-- Run the logger loop over a sequence of received values, collecting
the written values and the total count of `KilledByLogger` messages. -/
def runLogger (limit : Option Nat) (kill : Bool) (s : LogState) (vs : List Json) :
    LogState × List Json × Nat :=
  match vs with
  | [] => (s, [], 0)
  | v :: rest =>
    let (s', w, k) := logStep limit kill s v
    let (s'', ws, ks) := runLogger limit kill s' rest
    (s'', w.toList ++ ws, k + ks)

/-- The logger loop from its initial state (`counter = 0`,
`keep_logging = true`, src/providers.rs lines 160-161). -/
def loggerRun (limit : Option Nat) (kill : Bool) (vs : List Json) :
    LogState × List Json × Nat :=
  runLogger limit kill { counter := 0, keepLogging := true } vs

/-! ## Repeater stream (src/providers.rs, `RepeaterStream` / `literals`) -/

/-- `(a).checked_rem b`: `none` when the divisor is zero, otherwise the
remainder (the guard used by `RepeaterStream::poll`). -/
def checked_rem (a b : Nat) : Option Nat :=
  if b = 0 then none else some (a % b)

/-- `RepeaterStream` (src/providers.rs lines 97-101): a cursor `i` over a
vector of values. -/
structure RepeaterStream (T : Type) where
  i : Nat
  values : List T

/-- `RepeaterStream::poll` (src/providers.rs lines 113-117): read the
current index, advance it to `(i + 1).checked_rem(len).unwrap_or(0)`, and
yield `values.get(i).cloned()` (`none` ends the stream). -/
def rsPoll {T : Type} (s : RepeaterStream T) : RepeaterStream T × Option T :=
  let i := s.i
  let inext := (checked_rem (i + 1) s.values.length).getD 0
  ({ i := inext, values := s.values }, s.values.get? i)

/-- Poll a `RepeaterStream` `n` times, collecting the yielded items. -/
def rsRun {T : Type} : Nat → RepeaterStream T → List (Option T) × RepeaterStream T
  | 0, s => ([], s)
  | n + 1, s =>
    ((rsPoll s).2 :: (rsRun n (rsPoll s).1).1, (rsRun n (rsPoll s).1).2)

/-- The repeater stream spawned by `providers::literals`
(src/providers.rs line 129): `RepeaterStream::new(values)` starts at
index 0. -/
def literalsStream (values : List Json) : RepeaterStream Json :=
  { i := 0, values := values }

/-! ## Stream items and endpoint building (src/request.rs, `Builder::build`) -/

/-- `config::EndpointProvidesSendOptions` (spec §3 `SendBehavior`): the
re-insertion policy of an auto-return. -/
inductive SendBehavior where
  | Block : SendBehavior
  | Force : SendBehavior
  | IfNotFull : SendBehavior
  | NoOp : SendBehavior
deriving DecidableEq

/-- `config::AutoReturn` (spec §3): a send behaviour, the originating
provider's sender (identified here by a channel id) and the values to
return. -/
structure AutoReturn where
  send_behavior : SendBehavior
  tx : Nat
  values : List Json

/-- `StreamItem` (src/request.rs lines 278-282). -/
inductive StreamItem where
  | Declare (name : String) (v : Json) (ars : List AutoReturn) : StreamItem
  | None : StreamItem
  | TemplateValue (name : String) (v : Json) (ar : Option AutoReturn) : StreamItem

/-- The provider-stream mapping of `Builder::build` (src/request.rs lines
233-243): each value `v` pulled from the provider's receiver becomes
`StreamItem::TemplateValue(name, v, ar)` where `ar` is `None` when
`no_auto_returns`, and otherwise `AutoReturn::new(send_option, tx, vec![v])`
for the provider's configured `auto_return` send option. -/
def providerStreamItem (no_auto_returns : Bool) (name : String)
    (auto_return : Option SendBehavior) (tx : Nat) (v : Json) : StreamItem :=
  let ar := if no_auto_returns then none
    else auto_return.map (fun send_option => AutoReturn.mk send_option tx [v])
  StreamItem.TemplateValue name v ar

/-- All items one provider stream produces for the receiver's value
sequence `vs` (src/request.rs lines 233-246). -/
def providerStreamItems (no_auto_returns : Bool) (name : String)
    (auto_return : Option SendBehavior) (tx : Nat) (vs : List Json) :
    List StreamItem :=
  vs.map (providerStreamItem no_auto_returns name auto_return tx)

/-- Modelled from the spec: `ValueOrComplexExpression::into_stream` lives
in the `config` module, which is not among the analysed sources; only its
call site (src/request.rs line 250) is. Per §4.G a declare stream yields
`(value, auto_returns)` pairs, and per the §3 invariant "`no_auto_returns`
on an endpoint suppresses all `AutoReturn` construction" its boolean
argument — named after the identically-used flag in the provider-stream
code directly above the call site — suppresses the accompanying
`AutoReturn`s when `true`. -/
def into_stream (no_auto_returns : Bool)
    (pairs : List (Json × List AutoReturn)) : List (Json × List AutoReturn) :=
  if no_auto_returns then pairs.map (fun p => (p.1, [])) else pairs

/-- The declare-stream mapping of `Builder::build` (src/request.rs lines
248-252): `vce.into_stream(&ctx.providers, false)` — the flag is the
literal `false`, not the endpoint's `no_auto_returns` — mapped into
`StreamItem::Declare` items. -/
def declareStreamItems (name : String)
    (pairs : List (Json × List AutoReturn)) : List StreamItem :=
  (into_stream false pairs).map (fun p => StreamItem.Declare name p.1 p.2)

/-- The inputs of `Builder::build` that determine the endpoint's input
stream items: the `no_auto_returns` flag, the providers to stream (name,
configured auto-return, sender id, and the value sequence the receiver
yields) and the declares (name and the pairs their expression stream
yields). -/
structure EndpointInputs where
  no_auto_returns : Bool
  providerInputs : List (String × Option SendBehavior × Nat × List Json)
  declares : List (String × List (Json × List AutoReturn))

/-- Every `StreamItem` the endpoint's provider and declare input streams
produce (src/request.rs lines 224-253). -/
def buildStreamItems (e : EndpointInputs) : List StreamItem :=
  (e.providerInputs.map
    (fun q => providerStreamItems e.no_auto_returns q.1 q.2.1 q.2.2.1 q.2.2.2)).flatten
    ++ (e.declares.map (fun q => declareStreamItems q.1 q.2)).flatten

/-- `true` for a `TemplateValue` item carrying no `AutoReturn`, and for
items that are not `TemplateValue`s. -/
def templateValueArNone : StreamItem → Bool
  | .TemplateValue _ _ ar => ar.isNone
  | _ => true

/-- `true` for a `Declare` item carrying an empty `AutoReturn` list, and
for items that are not `Declare`s. -/
def declareArsEmpty : StreamItem → Bool
  | .Declare _ _ ars => ars.isEmpty
  | _ => true

/-! ## Sentinel start stream (src/request.rs lines 171-175 and 201-213) -/

/-- `provides_set` (src/request.rs lines 171-175, 184-186): populated
with the provided channels exactly when the endpooint has no
`start_stream` and a non-empty `provides` map. -/
def providesSet (hasStartStream : Bool) (provides : List Channel) :
    Option (List Channel) :=
  if !hasStartStream && !provides.isEmpty then some provides else none

/-- What occupies index 0 of the endpoint's stream collection. -/
inductive FirstStreamKind where
  | fromStartStream : FirstStreamKind
  | sentinel (set : List Channel) : FirstStreamKind
  | noStream : FirstStreamKind

/-- src/request.rs lines 201-213: a supplied `start_stream` is pushed
first; otherwise, when `provides_set` is populated, the synthetic
sentinel stream over the provided channels is pushed first; otherwise no
index-0 stream is installed. -/
def installedFirstStream (hasStartStream : Bool) (provides : List Channel) :
    FirstStreamKind :=
  if hasStartStream then .fromStartStream
  else
    match providesSet hasStartStream provides with
    | some set => .sentinel set
    | none => .noStream

/-- One poll of the sentinel stream (src/request.rs lines 204-211):
end-of-stream once every provided channel reports `no_receivers()`,
otherwise a `StreamItem::None` pacing tick. -/
def sentinelPoll (set : List Channel) : Option StreamItem :=
  if set.all no_receivers then none else some StreamItem.None

/-- Modelled from the spec (§4.H: input streams "are zipped element-wise
(`zip_all`): a single tick completes only once every stream has yielded.
If any stream ends, the engine terminates"; the `zip_all` crate is an
external collaborator): one tick of the zipped streams from the
per-stream results — end-of-stream as soon as any one stream ends. -/
def zipTick (polls : List (Option StreamItem)) : Option (List StreamItem) :=
  if polls.any (fun p => p.isNone) then none
  else some (polls.filterMap (fun p => p))

/-! ## On-demand gating (src/request.rs, `Endpoint::into_future`) -/

/-- src/request.rs line 601: the gated composition is used exactly when
the endpoint has on-demand streams and provides. -/
def usesOnDemandGate {A B : Type} (on_demand_streams : List A)
    (provides : List B) : Bool :=
  !on_demand_streams.isEmpty && !provides.isEmpty

/-- Result of polling `select_any(on_demand_streams)`. -/
inductive OdPoll where
  | readySome : OdPoll
  | readyNone : OdPoll
  | notReady : OdPoll
  | errPoll : OdPoll

/-- Result the zipped provider streams would give if polled: a tick's
items, end-of-stream, pending, or an error. -/
inductive ZipPoll where
  | ready (v : Option (List StreamItem)) : ZipPoll
  | notReady : ZipPoll
  | errPoll : ZipPoll

/-- Result of one poll of the composed stream. -/
inductive CompPoll where
  | ready (v : Option (List StreamItem)) : CompPoll
  | notReady : CompPoll
  | internalErr : CompPoll
  | zipErr : CompPoll

/-- src/request.rs lines 619-626: after the gate is open the zipped
streams are polled; any result other than `NotReady` clears
`od_continue`. Returns (new `od_continue`, zipped streams were polled,
composed result). -/
def afterGate (zip : ZipPoll) : Bool × Bool × CompPoll :=
  match zip with
  | .notReady => (true, true, .notReady)
  | .ready v => (false, true, .ready v)
  | .errPoll => (false, true, .zipErr)

/-- One poll of the gated composed stream (src/request.rs lines 605-627):
the on-demand selector is polled each time (its result is ignored while
`od_continue` holds a trigger); when no trigger is held, `Ready(Some)`
opens the gate, `Ready(None)` ends the composed stream, `NotReady`
returns pending without touching the zipped streams, and an error is an
internal error. Returns (new `od_continue`, zipped streams were polled,
composed result). -/
def composedPoll (od_continue : Bool) (od : OdPoll) (zip : ZipPoll) :
    Bool × Bool × CompPoll :=
  if od_continue then afterGate zip
  else
    match od with
    | .readySome => afterGate zip
    | .readyNone => (false, false, .ready none)
    | .notReady => (false, false, .notReady)
    | .errPoll => (false, false, .internalErr)

/-! ## Multipart content-type rewrite (src/request.rs,
`MultipartBody::as_hyper_body`, lines 292-334) -/

/-- The boundary generated at src/request.rs lines 292-295: 20 characters
sampled from the alphanumeric distribution (the sampler is a parameter;
randomness is not modelled). -/
def genBoundary (sample : Nat → Char) : String :=
  String.mk ((List.range 20).map sample)

/-- `str::starts_with` of Rust, as a character-prefix test. -/
def startsWithStr (s pre : String) : Bool :=
  pre.data.isPrefixOf s.data

/-- The Content-Type rewrite of `MultipartBody::as_hyper_body`
(src/request.rs lines 297-334): an absent header is first inserted as
`multipart/form-data` (`or_insert_with`); then a header starting with
`multipart/` is replaced by `<ct>;boundary=<b>` — unconditionally, with
no check for an existing boundary parameter — and any other header is
replaced by `multipart/form-data;boundary=<b>`. -/
def rewriteContentType (boundary : String) (ct : Option String) : String :=
  let ctStr := ct.getD ("multipart/form-data")
  if startsWithStr ctStr ("multipart/") then ctStr ++ ";boundary=" ++ boundary
  else "multipart/form-data;boundary=" ++ boundary

/-! ## BlockSender (src/request.rs lines 663-727) -/

/-- The mutable fields of `BlockSender`: the retried `last_value`, the
remaining iterator of `Result` values, and the `value_added` flag. -/
structure BSState where
  last : Option Json
  vals : List (Except Unit Json)
  added : Bool

/-- How one `BlockSender::poll` returned. -/
inductive BSOutcome where
  | ready : BSOutcome
  | notReady : BSOutcome
  | errored : BSOutcome

/-- The inner loop of `BlockSender::poll` (src/request.rs lines 697-717)
after `last_value` has been dealt with: drain the remaining values into
the channel. Returns (remaining values, new `last_value`, channel, values
successfully inserted in order, outcome). An `Err` from the iterator
propagates (`r?`); `Closed` completes; `Full` stores the value back into
`last_value` and returns `NotReady`. -/
def bsLoop : List (Except Unit Json) → Channel →
    List (Except Unit Json) × Option Json × Channel × List Json × BSOutcome
  | [], ch => ([], none, ch, [], .ready)
  | r :: rest, ch =>
    match r with
    | .error _ => (rest, none, ch, [], .errored)
    | .ok v =>
      match try_send ch v with
      | (.closed, ch') => (rest, none, ch', [], .ready)
      | (.full, ch') => (rest, some v, ch', [], .notReady)
      | (.success, ch') =>
        let (vals', last', ch'', ins, out) := bsLoop rest ch'
        (vals', last', ch'', v :: ins, out)

/-- `BlockSender::poll` (src/request.rs lines 697-717): first retry
`last_value.take()`, then drain the remaining values; every `Success`
sets `value_added`. Returns (new state, channel, inserted values,
outcome). -/
def bsPoll (s : BSState) (ch : Channel) :
    BSState × Channel × List Json × BSOutcome :=
  match s.last with
  | some v =>
    match try_send ch v with
    | (.closed, ch') => ({ s with last := none }, ch', [], .ready)
    | (.full, ch') => ({ s with last := some v }, ch', [], .notReady)
    | (.success, ch') =>
      let (vals', last', ch'', ins, out) := bsLoop s.vals ch'
      ({ last := last', vals := vals', added := true }, ch'', v :: ins, out)
  | none =>
    let (vals', last', ch', ins, out) := bsLoop s.vals ch
    ({ last := last', vals := vals', added := s.added || !ins.isEmpty }, ch', ins, out)

/-- A `BlockSender`'s polling lifetime: the environment (consumers
draining the shared channel) determines the channel state seen by each
successive poll. Returns the final sender state and every value inserted
across the polls. -/
def bsRun (s : BSState) (chs : List Channel) : BSState × List Json :=
  match chs with
  | [] => (s, [])
  | ch :: rest =>
    let (s', _, ins, _) := bsPoll s ch
    let (s'', ins') := bsRun s' rest
    (s'', ins ++ ins')

/-- `Drop for BlockSender` (src/request.rs lines 720-727): one final
discarded poll, then — when an on-demand `cb` is attached — the single
invocation `cb(self.value_added)`. Returns the values inserted by the
final poll and the list of callback invocations (with their boolean
arguments). -/
def bsDrop (s : BSState) (ch : Channel) (hasCb : Bool) :
    List Json × List Bool :=
  let (s', _, ins, _) := bsPoll s ch
  (ins, if hasCb then [s'.added] else [])

/-- A complete `BlockSender` lifetime over the value sequence `vals`:
construction (src/request.rs lines 674-691: `last_value = None`,
`value_added = false`), the polls the executor performs, and the drop.
Returns (all inserted values in order, callback invocations). -/
def bsLife (vals : List (Except Unit Json)) (chs : List Channel)
    (dropCh : Channel) (hasCb : Bool) : List Json × List Bool :=
  let s0 : BSState := { last := none, vals := vals, added := false }
  let (s', ins) := bsRun s0 chs
  let (ins', calls) := bsDrop s' dropCh hasCb
  (ins ++ ins', calls)

/-! # Theorems -/

/-- C10: for the empty list of values, `RepeaterStream::poll` never
panics — the index update `(i + 1).checked_rem(len).unwrap_or(0)` guards
the zero divisor — and the stream yields end-of-stream (`Ready(None)`)
immediately, so a `literals` provider over an empty list produces no
values: every poll yields `none`. -/
theorem repeater_empty_safe (i n : Nat) :
    rsPoll ({ i := i, values := [] } : RepeaterStream Json) =
      ({ i := 0, values := [] }, none) ∧
    (rsRun n (literalsStream [])).1 = List.replicate n none := by
  constructor
  · simp [rsPoll, checked_rem]
  · induction n with
    | zero => simp [rsRun]
    | succ n ih =>
      simp [rsRun, List.replicate_succ, rsPoll, checked_rem, literalsStream] at ih ⊢
      exact ih

/-- C9: every logger's channel is created with the fixed capacity
`Limit::Integer(5)` (src/providers.rs line 156) regardless of the
configuration, so — in the spec §4.A channel model — at most 5 values
can be buffered before a sender observes `Full`: with any positive
number of receivers, 5 sends into the fresh channel succeed and the
sixth reports `Full`. -/
theorem logger_channel_limit (t : LoggerConfig) (n : Nat) :
    loggerChannelLimit t = Limit.Integer 5 ∧
    (sendAll (newChannel (loggerChannelLimit t) (n + 1))
      (List.replicate 5 Json.null)).2 = List.replicate 5 SendState.success ∧
    (try_send (sendAll (newChannel (loggerChannelLimit t) (n + 1))
      (List.replicate 5 Json.null)).1 Json.null).1 = SendState.full := by
  refine ⟨rfl, ?_, ?_⟩ <;>
    simp +decide [loggerChannelLimit, newChannel, capOf, sendAll, try_send,
      List.replicate_succ]

/-- C5: with a non-empty `on_demand_streams` list and non-empty
`provides`, the gated composition is used, and its poll function
(src/request.rs lines 605-627) polls the zipped provider streams only
after the on-demand selector has yielded a trigger: with no held trigger
and a pending selector the zipped streams are not polled; a held trigger
(`od_continue`) goes straight to the zipped streams; a zipped `Pending`
keeps the trigger held; a zipped value or end-of-stream consumes the
trigger, so a new one is required before the next tick. -/
theorem on_demand_pacing {A B : Type} (x : A) (xs : List A) (y : B)
    (ys : List B) (od : OdPoll) (zip : ZipPoll)
    (v : Option (List StreamItem)) :
    usesOnDemandGate (x :: xs) (y :: ys) = true ∧
    composedPoll false OdPoll.notReady zip = (false, false, CompPoll.notReady) ∧
    composedPoll false OdPoll.readyNone zip = (false, false, CompPoll.ready none) ∧
    composedPoll false OdPoll.readySome ZipPoll.notReady =
      (true, true, CompPoll.notReady) ∧
    composedPoll true od ZipPoll.notReady = (true, true, CompPoll.notReady) ∧
    composedPoll false OdPoll.readySome (ZipPoll.ready v) =
      (false, true, CompPoll.ready v) ∧
    composedPoll true od (ZipPoll.ready v) = (false, true, CompPoll.ready v) := by
  refine ⟨?_, ?_, ?_, ?_, ?_, ?_, ?_⟩ <;>
    simp [usesOnDemandGate, composedPoll, afterGate]

/-- C7 (amended): the stderr and stdout destinations write exactly the
claimed form — pretty multi-line when `pretty` and the value is not a
string, else the stringified form with strings unquoted — but the file
destination does not: it writes the pretty rendering whenever `pretty`
(strings included) and the compact `Display` rendering (strings quoted)
otherwise, agreeing with the claimed form only on non-strings. -/
theorem logger_write_forms (pretty : Bool) (v : Json) :
    loggerWriteStderr pretty v = specLoggerWrite pretty v ∧
    loggerWriteStdout pretty v = specLoggerWrite pretty v ∧
    loggerWriteFile pretty v =
      (if v.is_string then (if pretty then prettyString v else compactString v)
        else specLoggerWrite pretty v) := by
  refine ⟨rfl, rfl, ?_⟩
  cases v <;> cases pretty <;>
    simp [loggerWriteFile, specLoggerWrite, Json.is_string,
      json_value_into_string]

/-- C7 counterexample: the written forms do not hold identically for the
file destination — for `pretty = false` and the string value `"hi"` the
stderr/stdout form is the unquoted `hi` while the file destination
writes the compact (quoted) rendering `"hi"`. -/
theorem logger_write_counterexample :
    loggerWriteStderr false (Json.str ("hi")) = "hi" ∧
    loggerWriteFile false (Json.str ("hi")) = "\"hi\"" ∧
    ("hi" : String) ≠ "\"hi\"" := by
  refine ⟨rfl, ?_, by decide⟩
  rfl

/-- C6 (amended): an absent Content-Type is rewritten to
`multipart/form-data;boundary=<b>`; a Content-Type starting with
`multipart/` is rewritten to `<ct>;boundary=<b>` unconditionally —
whether or not it already carries a boundary parameter — and any other
Content-Type is replaced by `multipart/form-data;boundary=<b>`; the
generated boundary has 20 characters, alphanumeric when the sampled
distribution is. -/
theorem multipart_content_type_amended (b ctv : String) (f : Nat → Char)
    (hf : ∀ n, (f n).isAlphanum = true) :
    rewriteContentType b none = "multipart/form-data;boundary=" ++ b ∧
    (startsWithStr ctv ("multipart/") = true →
      rewriteContentType b (some ctv) = ctv ++ ";boundary=" ++ b) ∧
    (startsWithStr ctv ("multipart/") = false →
      rewriteContentType b (some ctv) = "multipart/form-data;boundary=" ++ b) ∧
    (genBoundary f).length = 20 ∧
    (∀ c ∈ (genBoundary f).data, c.isAlphanum = true) := by
  have h1 : startsWithStr ("multipart/form-data") ("multipart/") = true := by
    decide
  refine ⟨?_, ?_, ?_, ?_, ?_⟩
  · simp only [rewriteContentType, Option.getD, h1, if_true]
    rw [show ("multipart/form-data" ++ ";boundary=" : String) =
      "multipart/form-data;boundary=" from by decide]
  · intro h
    simp [rewriteContentType, Option.getD, h]
  · intro h
    simp only [rewriteContentType, Option.getD, h, Bool.false_eq_true,
      if_false]
  · simp [genBoundary, String.length]
  · intro c hc
    simp only [genBoundary, String.mk] at hc
    rcases List.mem_map.mp hc with ⟨n, _, rfl⟩
    exact hf n

/-- C6 witness: the amended rewrite evaluated at the boundary `B`, at an
absent Content-Type and at the multipart Content-Type `multipart/mixed`,
with a constant alphanumeric sampler. -/
theorem multipart_content_type_witness :
    rewriteContentType "B" none = "multipart/form-data;boundary=" ++ "B" ∧
    rewriteContentType "B" (some ("multipart/mixed")) =
      "multipart/mixed" ++ ";boundary=" ++ "B" ∧
    (genBoundary (fun _ => 'a')).length = 20 := by
  have af : ∀ n : Nat, ((fun _ : Nat => 'a') n).isAlphanum = true := by
    intro n
    show ('a').isAlphanum = true
    decide
  have H := multipart_content_type_amended "B" "multipart/mixed"
    (fun _ => 'a') af
  exact ⟨H.1, H.2.1 (by decide), H.2.2.2.1⟩

/-- C6 counterexample: a `multipart/*` Content-Type that already carries
a boundary parameter is not left as is — the build appends a second
boundary parameter. -/
theorem multipart_content_type_counterexample :
    rewriteContentType "XYZ" (some ("multipart/form-data;boundary=abc")) =
      "multipart/form-data;boundary=abc;boundary=XYZ" ∧
    "multipart/form-data;boundary=abc;boundary=XYZ" ≠
      "multipart/form-data;boundary=abc" := by
  have h1 : startsWithStr ("multipart/form-data;boundary=abc")
      ("multipart/") = true := by decide
  constructor
  · simp only [rewriteContentType, Option.getD, h1, if_true]
    decide
  · decide

/-- The logger loop with `kill = true` and `limit = L`, started at
counter `c` with `keep_logging` set: every received value is written
(the kill branch never clears `keep_logging`), and one `KilledByLogger`
message is sent for every value whose (incremented) counter is at least
`L`. -/
theorem runLogger_kill (L : Nat) (vs : List Json) : ∀ c : Nat,
    runLogger (some L) true { counter := c, keepLogging := true } vs =
      ({ counter := c + vs.length, keepLogging := true }, vs,
        (c + vs.length) - max c (L - 1)) := by
  induction vs with
  | nil =>
    intro c
    simp [runLogger]
    try omega
  | cons v rest ih =>
    intro c
    simp only [runLogger, logStep]
    by_cases hc : L ≤ c + 1
    · rw [if_pos hc]
      simp [ih (c + 1), List.length_cons]
      try omega
    · rw [if_neg hc]
      simp [ih (c + 1), List.length_cons]
      try omega

/-- C2 (amended): a logger with `limit = L ≥ 1` and `kill = true`
receiving at least `L` values writes every received value — the kill
branch of the source (src/providers.rs lines 176-182) sends
`KilledByLogger` but does not clear `keep_logging`, so writing does not
stop at `L` — and sends a `KilledByLogger` error to the test-killer when
the counter reaches `L` and again for each later value, for
`n - L + 1` messages in total over `n` values. -/
theorem logger_kill_amended (L : Nat) (vs : List Json) (hL : 1 ≤ L)
    (h : L ≤ vs.length) :
    (loggerRun (some L) true vs).2.1 = vs ∧
    (loggerRun (some L) true vs).2.2 = vs.length - L + 1 := by
  rw [loggerRun, runLogger_kill L vs 0]
  refine ⟨rfl, ?_⟩
  simp
  omega

/-- C2 witness: the amended behaviour at `limit = 3`, `kill = true` and
five received values — all five are written and three `KilledByLogger`
messages are sent. -/
theorem logger_kill_amended_witness :
    (loggerRun (some 3) true (List.replicate 5 Json.null)).2.1 =
      List.replicate 5 Json.null ∧
    (loggerRun (some 3) true (List.replicate 5 Json.null)).2.2 =
      (List.replicate 5 Json.null).length - 3 + 1 := by
  exact logger_kill_amended 3 (List.replicate 5 Json.null) (by decide) (by simp)

/-- C2 counterexample: a logger with `limit = 3`, `kill = true`
receiving five values does not write exactly the first three — all five
values are written (and the 4th and 5th still trigger further
`KilledByLogger` sends, three messages in total). -/
theorem logger_kill_counterexample :
    (loggerRun (some 3) true (List.replicate 5 Json.null)).2.1.length = 5 ∧
    (5 : Nat) ≠ 3 ∧
    (loggerRun (some 3) true (List.replicate 5 Json.null)).2.2 = 3 := by
  refine ⟨rfl, by decide, rfl⟩

/-- C4: an endpoint built with no `start_stream` and a non-empty
`provides` map installs the synthetic sentinel stream at index 0 of its
stream collection; each poll of the sentinel yields a
`StreamItem::None` pacing tick while at least one provided channel still
has receivers, and yields end-of-stream as soon as every provided
channel reports `no_receivers()`. -/
theorem sentinel_stream (p : Channel) (ps : List Channel) :
    installedFirstStream false (p :: ps) = FirstStreamKind.sentinel (p :: ps) ∧
    (∀ set : List Channel, (∃ c ∈ set, no_receivers c = false) →
      sentinelPoll set = some StreamItem.None) ∧
    (∀ set : List Channel, (∀ c ∈ set, no_receivers c = true) →
      sentinelPoll set = none) ∧
    (∀ rest : List (Option StreamItem), zipTick (none :: rest) = none) := by
  refine ⟨rfl, ?_, ?_, ?_⟩
  · intro set h
    rcases h with ⟨c, hc, hrec⟩
    rw [sentinelPoll, if_neg]
    intro hall
    rw [List.all_eq_true] at hall
    rw [hall c hc] at hrec
    exact Bool.noConfusion hrec
  · intro set h
    rw [sentinelPoll, if_pos]
    rw [List.all_eq_true]
    exact h
  · intro rest
    rw [zipTick, if_pos]
    simp

/-- C4 witness: the sentinel installed for one provided channel; a poll
with a live receiver yields the pacing tick, and a poll with no
receivers ends the stream. -/
theorem sentinel_stream_witness :
    installedFirstStream false [newChannel (Limit.Integer 1) 1] =
      FirstStreamKind.sentinel [newChannel (Limit.Integer 1) 1] ∧
    sentinelPoll [newChannel (Limit.Integer 1) 1] = some StreamItem.None ∧
    sentinelPoll [newChannel (Limit.Integer 1) 0] = none ∧
    zipTick [none] = none := by
  refine ⟨(sentinel_stream (newChannel (Limit.Integer 1) 1) []).1, ?_, ?_, ?_⟩
  · exact (sentinel_stream (newChannel (Limit.Integer 1) 1) []).2.1 _
      ⟨newChannel (Limit.Integer 1) 1, by simp, by decide⟩
  · exact (sentinel_stream (newChannel (Limit.Integer 1) 1) []).2.2.1 _
      (by intro c hc; rw [List.mem_singleton] at hc; rw [hc]; decide)
  · exact (sentinel_stream (newChannel (Limit.Integer 1) 1) []).2.2.2 []

/-- C1 (amended): for an endpoint built with `no_auto_returns = true`,
every `TemplateValue` item the endpoint's input streams produce carries
`None` in its `AutoReturn` slot; `Declare` items, however, carry exactly
the `AutoReturn`s their `into_stream` expression yields, unsuppressed —
`Builder::build` passes the literal `false` (src/request.rs line 250),
not the endpoint's `no_auto_returns` flag, to `into_stream`. -/
theorem no_auto_returns_amended
    (pi : List (String × Option SendBehavior × Nat × List Json))
    (ds : List (String × List (Json × List AutoReturn))) :
    (buildStreamItems { no_auto_returns := true, providerInputs := pi,
                        declares := ds }).all templateValueArNone = true ∧
    (∀ (name : String) (pairs : List (Json × List AutoReturn)),
      declareStreamItems name pairs =
        pairs.map (fun p => StreamItem.Declare name p.1 p.2)) := by
  constructor
  · rw [List.all_eq_true]
    intro x hx
    rw [buildStreamItems] at hx
    rcases List.mem_append.mp hx with h | h
    · rcases List.mem_flatten.mp h with ⟨l, hl, hxl⟩
      rcases List.mem_map.mp hl with ⟨q, _, rfl⟩
      rcases List.mem_map.mp hxl with ⟨v, _, rfl⟩
      rfl
    · rcases List.mem_flatten.mp h with ⟨l, hl, hxl⟩
      rcases List.mem_map.mp hl with ⟨q, _, rfl⟩
      rcases List.mem_map.mp hxl with ⟨p, _, rfl⟩
      rfl
  · intro name pairs
    rfl

/-- C1 counterexample: an endpoint with `no_auto_returns = true` and a
declare whose expression stream yields a pair carrying one `AutoReturn`
produces a `Declare` stream item whose `AutoReturn` list is non-empty —
the claim's "every Declare item carries an empty AutoReturn list" fails. -/
theorem no_auto_returns_counterexample :
    buildStreamItems { no_auto_returns := true, providerInputs := [],
                       declares := [(("d"),
                         [(Json.null,
                           [AutoReturn.mk SendBehavior.Block 0 [Json.null]])])] } =
      [StreamItem.Declare ("d") Json.null
        [AutoReturn.mk SendBehavior.Block 0 [Json.null]]] ∧
    (buildStreamItems { no_auto_returns := true, providerInputs := [],
                        declares := [(("d"),
                          [(Json.null,
                            [AutoReturn.mk SendBehavior.Block 0 [Json.null]])])] }).all
      declareArsEmpty = false := by
  exact ⟨rfl, rfl⟩

/-- Splitting off the head of a `range`-indexed map. -/
theorem range_map_shift (g : Nat → Option Json) (n : Nat) :
    (List.range (n + 1)).map g = g 0 :: (List.range n).map (fun j => g (j + 1)) := by
  rw [List.range_succ_eq_map, List.map_cons, List.map_map]
  rfl

/-- Indexing a list over its whole range retrieves the list. -/
theorem range_map_get (l : List Json) :
    (List.range l.length).map (fun j => l.get? j) = l.map some := by
  induction l with
  | nil => simp
  | cons a t ih =>
    have h2 : (List.range t.length).map (fun j => (a :: t).get? (j + 1)) =
        t.map some := ih
    rw [List.length_cons, range_map_shift (fun j => (a :: t).get? j) t.length]
    exact congrArg₂ List.cons rfl h2

/-- Running the repeater stream from any in-range index: the `n` yielded
items are the values at the successive indices modulo the length, and
the final cursor is the start index advanced by `n` modulo the length. -/
theorem rsRun_state_outputs (vs : List Json) :
    ∀ (n i : Nat), i < vs.length →
      rsRun n ({ i := i, values := vs } : RepeaterStream Json) =
        ((List.range n).map (fun j => vs.get? ((i + j) % vs.length)),
          { i := (i + n) % vs.length, values := vs }) := by
  intro n
  induction n with
  | zero =>
    intro i hi
    simp [rsRun, Nat.mod_eq_of_lt hi]
  | succ n ih =>
    intro i hi
    have hlen : ¬ vs.length = 0 := by omega
    have hpoll : rsPoll ({ i := i, values := vs } : RepeaterStream Json) =
        ({ i := (i + 1) % vs.length, values := vs }, vs.get? i) := by
      simp [rsPoll, checked_rem, hlen]
    have hlt : (i + 1) % vs.length < vs.length := Nat.mod_lt _ (by omega)
    have hrec := ih ((i + 1) % vs.length) hlt
    have hfun : (fun j => vs.get? (((i + 1) % vs.length + j) % vs.length)) =
        (fun j => vs.get? ((i + (j + 1)) % vs.length)) := by
      funext j
      rw [Nat.mod_add_mod, show i + (j + 1) = i + 1 + j from by omega]
    have hstate : ((i + 1) % vs.length + n) % vs.length =
        (i + (n + 1)) % vs.length := by
      rw [Nat.mod_add_mod, show i + (n + 1) = i + 1 + n from by omega]
    rw [range_map_shift (fun j => vs.get? ((i + j) % vs.length)) n]
    simp only [rsRun, hpoll, hrec, hfun, hstate]
    simp [Nat.mod_eq_of_lt hi]

/-- Polling a repeater stream `m + n` times is polling it `m` times and
then `n` more times from where it left off. -/
theorem rsRun_add {T : Type} (m n : Nat) (s : RepeaterStream T) :
    rsRun (m + n) s =
      ((rsRun m s).1 ++ (rsRun n (rsRun m s).2).1, (rsRun n (rsRun m s).2).2) := by
  induction m generalizing s with
  | zero => simp [rsRun]
  | succ m ih =>
    rw [Nat.succ_add]
    simp only [rsRun]
    rw [ih (rsPoll s).1]
    simp

/-- One full cycle of the literals repeater: polling it `K` times yields
the `K` values in order and returns the cursor to the start. -/
theorem rsRun_cycle (a : Json) (rest : List Json) :
    rsRun (a :: rest).length (literalsStream (a :: rest)) =
      ((a :: rest).map some, literalsStream (a :: rest)) := by
  have h := rsRun_state_outputs (a :: rest) (a :: rest).length 0 (by simp)
  simp only [literalsStream]
  rw [h]
  congr 1
  · rw [← range_map_get (a :: rest)]
    apply List.map_congr_left
    intro j hj
    rw [List.mem_range] at hj
    rw [Nat.zero_add, Nat.mod_eq_of_lt hj]
  · simp

/-- `N` full cycles of the literals repeater yield `N` concatenations of
the value list and return the cursor to the start. -/
theorem rsRun_cycles (a : Json) (rest : List Json) (N : Nat) :
    rsRun (N * (a :: rest).length) (literalsStream (a :: rest)) =
      (((List.replicate N (a :: rest)).flatten).map some,
        literalsStream (a :: rest)) := by
  induction N with
  | zero => simp [rsRun]
  | succ N ih =>
    rw [Nat.succ_mul, rsRun_add, ih]
    simp only [rsRun_cycle a rest]
    rw [List.replicate_succ']
    simp

/-- C8: the repeater stream of a `literals` provider over a non-empty
list yields the cyclic sequence of the list indefinitely — the `n`-th
value produced is the element at index `n mod K` — and any prefix of
`N·K` consumed values equals `N` concatenations of the original list. -/
theorem literals_cyclic (a : Json) (rest : List Json) (n N : Nat) :
    (rsPoll (rsRun n (literalsStream (a :: rest))).2).2 =
      (a :: rest).get? (n % (a :: rest).length) ∧
    (rsRun (N * (a :: rest).length) (literalsStream (a :: rest))).1 =
      ((List.replicate N (a :: rest)).flatten).map some := by
  constructor
  · have h := rsRun_state_outputs (a :: rest) n 0 (by simp)
    simp only [literalsStream]
    rw [h]
    simp [rsPoll]
  · rw [rsRun_cycles a rest N]

/-- The `value_added` flag after one `BlockSender::poll` is its prior
value or-ed with whether that poll inserted anything. -/
theorem bsPoll_added (s : BSState) (ch : Channel) :
    ((bsPoll s ch).1).added = (s.added || !((bsPoll s ch).2.2.1).isEmpty) := by
  rcases s with ⟨last, vals, added⟩
  cases last with
  | none =>
    rcases h : bsLoop vals ch with ⟨a, b, c, d, e⟩
    simp [bsPoll, h]
  | some v =>
    rcases hts : try_send ch v with ⟨st, ch'⟩
    cases st with
    | closed => simp [bsPoll, hts]
    | full => simp [bsPoll, hts]
    | success =>
      rcases h : bsLoop vals ch' with ⟨a, b, c, d, e⟩
      simp [bsPoll, hts, h]

/-- The `value_added` flag after any run of polls is its initial value
or-ed with whether anything was inserted during the run. -/
theorem bsRun_added (chs : List Channel) : ∀ s : BSState,
    ((bsRun s chs).1).added = (s.added || !((bsRun s chs).2).isEmpty) := by
  induction chs with
  | nil =>
    intro s
    simp [bsRun]
  | cons ch rest ih =>
    intro s
    rcases h1 : bsPoll s ch with ⟨s', ch', ins, out⟩
    have hadd : s'.added = (s.added || !ins.isEmpty) := by
      have := bsPoll_added s ch
      rw [h1] at this
      exact this
    rcases h2 : bsRun s' rest with ⟨s'', ins'⟩
    have hrec : s''.added = (s'.added || !ins'.isEmpty) := by
      have := ih s'
      rw [h2] at this
      exact this
    simp only [bsRun, h1, h2]
    rw [hrec, hadd]
    cases ins <;> cases ins' <;> simp

/-- C3: over any lifetime of a `BlockSender` — any number of polls with
the shared channel in arbitrary states, then the drop — an attached
on-demand callback is invoked exactly once, at drop, and its boolean
argument is `true` exactly when at least one value of the sequence was
successfully inserted into the target channel. -/
theorem block_sender_cb (vals : List (Except Unit Json)) (chs : List Channel)
    (dropCh : Channel) :
    (bsLife vals chs dropCh true).2 =
      [!((bsLife vals chs dropCh true).1).isEmpty] := by
  rcases h1 : bsRun { last := none, vals := vals, added := false } chs
    with ⟨s1, ins1⟩
  have ha1 : s1.added = (false || !ins1.isEmpty) := by
    have := bsRun_added chs { last := none, vals := vals, added := false }
    rw [h1] at this
    exact this
  rcases h2 : bsPoll s1 dropCh with ⟨s2, ch2, ins2, out2⟩
  have ha2 : s2.added = (s1.added || !ins2.isEmpty) := by
    have := bsPoll_added s1 dropCh
    rw [h2] at this
    exact this
  simp only [bsLife, bsDrop, h1, h2]
  rw [ha2, ha1]
  cases ins1 <;> cases ins2 <;> simp

end Pewpew
